import Mathlib

/-!
Verification development for a single-file stock dashboard (`Dashboard.py`).

The program composes three layers around a market-data fetch:

* `fetch_data` — the fetch wrapped by tenacity's
  `@retry(wait=wait_exponential(multiplier=1, min=4, max=60), stop=stop_after_attempt(5))`;
* `get_cached_data` — `fetch_data` memoized by `functools.lru_cache(maxsize=128)`
  on the key `(symbol, period, interval)`;
* chart builders (`price_indicator`, `candlestick_chart`, `prediction_chart`)
  and the Dash refresh callback `update_charts`.

The network, the pandas data frame and the plotly figure objects are shallowly
embedded: the network is an explicit oracle parameter, a data frame is a list
of OHLCV bars, and a figure is a record of the data actually placed in it.
Prices and seconds are modelled as rationals (every concrete value that the
program manipulates in the properties below is a small integer, exact in
binary floating point as well).
-/

/-- Cache key of `get_cached_data`: the argument tuple `(symbol, period, interval)`.
`functools.lru_cache` keys on exact value equality of the arguments; no
normalization (in particular no case folding of `symbol`) is applied. -/
structure CacheKey where
  symbol : String
  period : String
  interval : String
deriving DecidableEq

/-- One OHLCV sample of the downloaded data frame.  The date is a day number. -/
structure Bar where
  Date : Int
  Open : ℚ
  High : ℚ
  Low : ℚ
  Close : ℚ
  Volume : ℚ
deriving DecidableEq

/-- A downloaded data frame: the ordered sequence of bars. -/
abbrev Series := List Bar

/-- Decidable equality of `Except` results (needed to evaluate outcomes). -/
instance {E V : Type} [DecidableEq E] [DecidableEq V] : DecidableEq (Except E V) :=
  fun a b =>
  match a, b with
  | .ok x, .ok y =>
    match decEq x y with
    | isTrue h => isTrue (by rw [h])
    | isFalse h => isFalse (fun hh => h (Except.ok.inj hh))
  | .ok _, .error _ => isFalse (fun hh => Except.noConfusion hh)
  | .error _, .ok _ => isFalse (fun hh => Except.noConfusion hh)
  | .error x, .error y =>
    match decEq x y with
    | isTrue h => isTrue (by rw [h])
    | isFalse h => isFalse (fun hh => h (Except.error.inj hh))

/-- Python's `str.upper()` (ASCII case mapping), as the char-wise map. -/
def pyUpper (s : String) : String := ⟨s.data.map Char.toUpper⟩

/-- Python's builtin `max` on two rationals. -/
def pyMax (a b : ℚ) : ℚ := if a ≤ b then b else a

/-- Python's builtin `min` on two rationals. -/
def pyMin (a b : ℚ) : ℚ := if a ≤ b then a else b

/-- Association-list lookup, first match wins (the model of dict lookup). -/
def lookupEntries {K V : Type} [DecidableEq K] : List (K × V) → K → Option V
  | [], _ => none
  | (k', v) :: rest, k => if k' = k then some v else lookupEntries rest k

/-- Remove every entry with the given key. -/
def removeKey {K V : Type} [DecidableEq K] : List (K × V) → K → List (K × V)
  | [], _ => []
  | (k', v) :: rest, k =>
    if k' = k then removeKey rest k else (k', v) :: removeKey rest k

/-- State of a `functools.lru_cache(maxsize=...)` instance: entries ordered by
recency of use, head = most recently used, last = least recently used. -/
structure LRU (K V : Type) where
  maxsize : Nat
  entries : List (K × V)
deriving DecidableEq

/-- Cache lookup (no reordering; reordering is done by `touch`). -/
def LRU.lookup {K V : Type} [DecidableEq K] (c : LRU K V) (k : K) : Option V :=
  lookupEntries c.entries k

/-- A cache hit moves the key to the most-recently-used position
(`lru_cache` moves the hit link to the front of its recency list). -/
def LRU.touch {K V : Type} [DecidableEq K] (c : LRU K V) (k : K) (v : V) : LRU K V :=
  ⟨c.maxsize, (k, v) :: removeKey c.entries k⟩

/-- A cache miss that computed a value inserts it at the most-recently-used
position; if the cache is over capacity the least-recently-used entry (the
last one) is dropped. -/
def LRU.insert {K V : Type} [DecidableEq K] (c : LRU K V) (k : K) (v : V) : LRU K V :=
  ⟨c.maxsize, ((k, v) :: c.entries).take c.maxsize⟩

/-- Observable outcome of one `get_cached_data` call: the returned value or
the exception, the cache state afterwards, and how many times the underlying
retry-wrapped fetcher was invoked (0 on a hit, 1 on a miss). -/
structure CacheOutcome (E V : Type) where
  result : Except E V
  cache : LRU CacheKey V
  fetches : Nat
deriving DecidableEq

/-- `get_cached_data(symbol, period, interval)`: `fetch_data` memoized by
`functools.lru_cache(maxsize=128)`.  A hit returns the stored value and marks
the key most recently used; a miss calls the fetcher and caches the value on
success; an exception from the fetcher propagates and nothing is cached. -/
def get_cached_data {E V : Type} (fetch : CacheKey → Except E V)
    (c : LRU CacheKey V) (symbol period interval : String) : CacheOutcome E V :=
  let k : CacheKey := ⟨symbol, period, interval⟩
  match c.lookup k with
  | some v => ⟨.ok v, c.touch k v, 0⟩
  | none =>
    match fetch k with
    | .ok v => ⟨.ok v, c.insert k v, 1⟩
    | .error e => ⟨.error e, c, 1⟩

/-- Model of tenacity's `wait_exponential(multiplier, min=lo, max=hi)`: the
wait after the failed attempt numbered `attemptNumber` is
`max(max(0, lo), min(multiplier * 2^(attemptNumber - 1), hi))`. -/
def wait_exponential (multiplier lo hi : ℚ) (attemptNumber : Nat) : ℚ :=
  pyMax (pyMax 0 lo) (pyMin (multiplier * 2 ^ (attemptNumber - 1)) hi)

/-- The wait slept before attempt `k` (`k ≥ 2`) under the source's decorator
`wait_exponential(multiplier=1, min=4, max=60)`: the attempt that just failed
is attempt `k - 1`. -/
def dashboardWait (k : Nat) : ℚ :=
  wait_exponential 1 4 60 (k - 1)

/-- An exception escaping the retry-wrapped fetch.  Modelled from tenacity's
documented behaviour: with the default `reraise=False` (the source passes no
`reraise`), exhausting the stop condition raises `tenacity.RetryError`
wrapping the last attempt's exception; only with `reraise=True` would the
underlying exception itself be reraised unchanged. -/
inductive RetryExc (E : Type) where
  | retryError (last : E)
  | reraised (e : E)
deriving DecidableEq

/-- Retry loop body: attempt `attemptNo` calls the oracle at index `idx`; on
failure with retries remaining, sleep the configured wait and try again.
Returns the final result, the number of the last attempt made, and the total
time slept. -/
def retryGo {E V : Type} (oracle : Nat → Except E V) (wait : Nat → ℚ) :
    Nat → Nat → Nat → Except E V × Nat × ℚ
  | idx, attemptNo, remaining =>
    match oracle idx with
    | .ok v => (.ok v, attemptNo, 0)
    | .error e =>
      match remaining with
      | 0 => (.error e, attemptNo, 0)
      | r + 1 =>
        let rest := retryGo oracle wait (idx + 1) (attemptNo + 1) r
        (rest.1, rest.2.1, wait (attemptNo + 1) + rest.2.2)

/-- `fetch_data`, i.e. `yf.download` wrapped by
`@retry(wait=wait_exponential(multiplier=1, min=4, max=60), stop=stop_after_attempt(5))`:
up to 5 total attempts; the `idx`-th network call is modelled by `oracle idx`.
On exhaustion a `RetryError` wrapping the last attempt's exception escapes. -/
def fetch_data {E V : Type} (oracle : Nat → Except E V) (startIdx : Nat) :
    Except (RetryExc E) V × Nat × ℚ :=
  match retryGo oracle dashboardWait startIdx 1 4 with
  | (.ok v, n, s) => (.ok v, n, s)
  | (.error e, n, s) => (.error (.retryError e), n, s)

/-- The quote dictionary `yf.Ticker(symbol).info`, restricted to the two keys
the program reads; `none` models the key being absent from the dict. -/
structure QuoteInfo where
  regularMarketPrice : Option ℚ
  regularMarketOpen : Option ℚ
deriving DecidableEq

/-- The data the price-indicator figure displays: its title, the delta
reference (the open price) and the shown value (the current price). -/
structure IndicatorDesc where
  title : String
  reference : ℚ
  value : ℚ
deriving DecidableEq

/-- An exception escaping `price_indicator`. -/
inductive IndicatorErr (E : Type) where
  | keyError
  | indexError
  | fetchError (e : E)
deriving DecidableEq

/-- `price_indicator(symbol)`: reads `yf.Ticker(symbol).info`; if
`regularMarketPrice` is present it uses the quote directly (no cache access);
otherwise it falls back to `get_cached_data(symbol, period="1d", interval="1d")`
and uses the first bar's open and the last bar's close.  The outcome carries
the resulting cache state and the number of fetcher invocations. -/
def price_indicator {E : Type} (info : QuoteInfo) (fetch : CacheKey → Except E Series)
    (c : LRU CacheKey Series) (symbol : String) :
    Except (IndicatorErr E) IndicatorDesc × LRU CacheKey Series × Nat :=
  match info.regularMarketPrice with
  | some current =>
    match info.regularMarketOpen with
    | some op => (.ok ⟨pyUpper symbol ++ " Current Price", op, current⟩, c, 0)
    | none => (.error .keyError, c, 0)
  | none =>
    let o := get_cached_data fetch c symbol "1d" "1d"
    match o.result with
    | .error e => (.error (.fetchError e), o.cache, o.fetches)
    | .ok data =>
      match data.head?, data.getLast? with
      | some first, some last =>
        (.ok ⟨pyUpper symbol ++ " Current Price", first.Open, last.Close⟩, o.cache, o.fetches)
      | _, _ => (.error .indexError, o.cache, o.fetches)

/-- The data the candlestick+volume figure displays. -/
structure CandlestickDesc where
  subtitleOHLC : String
  subtitleVolume : String
  dates : List Int
  opens : List ℚ
  highs : List ℚ
  lows : List ℚ
  closes : List ℚ
  volumeDates : List Int
  volumes : List ℚ
deriving DecidableEq

/-- `candlestick_chart(symbol, period, interval, prediction_days)`: fetches the
series through the cache and plots OHLC candles and a volume line.  The
`prediction_days` parameter is accepted but not used anywhere in the body. -/
def candlestick_chart {E : Type} (fetch : CacheKey → Except E Series)
    (c : LRU CacheKey Series) (symbol period interval : String)
    ( prediction_days : Nat) :
    Except E CandlestickDesc × LRU CacheKey Series × Nat :=
  let o := get_cached_data fetch c symbol period interval
  match o.result with
  | .error e => (.error e, o.cache, o.fetches)
  | .ok data =>
    (.ok { subtitleOHLC := pyUpper symbol ++ " OHLC"
           subtitleVolume := "Volume"
           dates := data.map Bar.Date
           opens := data.map Bar.Open
           highs := data.map Bar.High
           lows := data.map Bar.Low
           closes := data.map Bar.Close
           volumeDates := data.map Bar.Date
           volumes := data.map Bar.Volume }, o.cache, o.fetches)

/-- The data the prediction figure displays: the actual close line and the
predicted line. -/
structure PredictionDesc where
  actualDates : List Int
  actualPrices : List ℚ
  predictionDates : List Int
  predictedPrices : List ℚ
  title : String
deriving DecidableEq

/-- An exception escaping `prediction_chart`. -/
inductive PredictionErr (E : Type) where
  | indexError
  | fetchError (e : E)
deriving DecidableEq

/-- `prediction_chart(symbol, prediction_days)`: fetches the series through
the cache with period `"1y"`, interval `"1d"`, and builds
`prediction_dates = [last_date + i for i in 1..prediction_days]` and
`predicted_prices = [last_close + i for i in 1..prediction_days]`
(`data.index[-1]` raises on an empty frame, modelled by `indexError`). -/
def prediction_chart {E : Type} (fetch : CacheKey → Except E Series)
    (c : LRU CacheKey Series) (symbol : String) ( prediction_days : Nat) :
    Except (PredictionErr E) PredictionDesc × LRU CacheKey Series × Nat :=
  let o := get_cached_data fetch c symbol "1y" "1d"
  match o.result with
  | .error e => (.error (.fetchError e), o.cache, o.fetches)
  | .ok data =>
    match data.getLast? with
    | none => (.error .indexError, o.cache, o.fetches)
    | some lastBar =>
      (.ok { actualDates := data.map Bar.Date
             actualPrices := data.map Bar.Close
             predictionDates :=
               (List.range prediction_days).map
                 (fun (j : ℕ) => lastBar.Date + ((j : Int) + 1))
             predictedPrices :=
               (List.range prediction_days).map
                 (fun (j : ℕ) => lastBar.Close + ((j : ℚ) + 1))
             title := pyUpper symbol ++ " Price Prediction for Next "
               ++ toString prediction_days ++ " Days" }, o.cache, o.fetches)

/-- A plotly figure as far as the refresh callback observes it: either the
empty `go.Figure()` placeholder or one of the three built charts. -/
inductive Figure where
  | empty
  | indicator (d : IndicatorDesc)
  | candles (d : CandlestickDesc)
  | projection (d : PredictionDesc)
deriving DecidableEq

/-- Digit-string accumulator for `int_of_string`. -/
def digitsVal (acc : Nat) : List Char → Option Nat
  | [] => some acc
  | ch :: cs => if ch.isDigit then digitsVal (acc * 10 + (ch.toNat - 48)) cs else none

/-- Model of Python's `int(str)` on optionally signed decimal strings (the
inputs relevant here); any other string raises `ValueError` (`.error`). -/
def int_of_string (s : String) : Except Unit Int :=
  match s.data with
  | [] => .error ()
  | '-' :: cs =>
    match cs, digitsVal 0 cs with
    | _ :: _, some n => .ok (-(n : Int))
    | _, _ => .error ()
  | '+' :: cs =>
    match cs, digitsVal 0 cs with
    | _ :: _, some n => .ok (n : Int)
    | _, _ => .error ()
  | cs =>
    match digitsVal 0 cs with
    | some n => .ok (n : Int)
    | none => .error ()

/-- The body of the `update_charts` callback up to its `try`: convert the
horizon to an integer, then build the three figures in order.  The three
builders are passed as oracles covering everything they may do (network,
cache); any step may fail. -/
def update_charts_body {E : Type}
    (build_indicator : String → Except E Figure)
    (build_candles : String → Except E Figure)
    (build_projection : String → Int → Except E Figure)
    (symbol : String) ( prediction_days : String) : Except (Option E) (Figure × Figure × Figure) :=
  match int_of_string prediction_days with
  | .error _ => .error none
  | .ok n =>
    match build_indicator symbol with
    | .error e => .error (some e)
    | .ok f1 =>
      match build_candles symbol with
      | .error e => .error (some e)
      | .ok f2 =>
        match build_projection symbol n with
        | .error e => .error (some e)
        | .ok f3 => .ok (f1, f2, f3)

/-- `update_charts(symbol, prediction_days)`: the Dash refresh callback.  The
whole body runs under `try`; on any exception the broad `except` returns the
triple `(go.Figure(), go.Figure(), go.Figure())` of empty figures. -/
def update_charts {E : Type}
    (build_indicator : String → Except E Figure)
    (build_candles : String → Except E Figure)
    (build_projection : String → Int → Except E Figure)
    (symbol : String) ( prediction_days : String) : Figure × Figure × Figure :=
  match update_charts_body build_indicator build_candles build_projection
      symbol prediction_days with
  | .ok t => t
  | .error _ => (.empty, .empty, .empty)

/-! ## Claim C6 — the projection builder -/

/-- A concrete one-bar series whose close is 100, for the claim's
`last close = 100.0, horizon = 3` instance. -/
def barClose100 : Bar := ⟨0, 100, 100, 100, 100, 1⟩

/-- Concrete fetcher returning the close-100 series for every key. -/
def fetchClose100 : CacheKey → Except Unit Series :=
  fun _ => .ok [barClose100]

/-! ## Helper lemmas about the retry loop -/

theorem retryGo_attempt_le {E V : Type} (oracle : Nat → Except E V) (wait : Nat → ℚ) :
    ∀ r idx a, (retryGo oracle wait idx a r).2.1 ≤ a + r := by
  intro r
  induction r with
  | zero =>
    intro idx a
    unfold retryGo
    cases oracle idx <;> simp
  | succ n ih =>
    intro idx a
    unfold retryGo
    cases oracle idx with
    | ok v => simp
    | error e =>
      have h := ih (idx + 1) (a + 1)
      simpa using by omega

theorem retryGo_attempt_ge {E V : Type} (oracle : Nat → Except E V) (wait : Nat → ℚ) :
    ∀ r idx a, a ≤ (retryGo oracle wait idx a r).2.1 := by
  intro r
  induction r with
  | zero =>
    intro idx a
    unfold retryGo
    cases oracle idx <;> simp
  | succ n ih =>
    intro idx a
    unfold retryGo
    cases oracle idx with
    | ok v => simp
    | error e =>
      have h := ih (idx + 1) (a + 1)
      simpa using by omega

theorem fetch_data_attempts {E V : Type} (oracle : Nat → Except E V) (startIdx : Nat) :
    (fetch_data oracle startIdx).2.1 = (retryGo oracle dashboardWait startIdx 1 4).2.1 := by
  unfold fetch_data
  rcases h : retryGo oracle dashboardWait startIdx 1 4 with ⟨r, n, sl⟩
  cases r <;> rfl

theorem pyMax_eq_max (a b : ℚ) : pyMax a b = max a b := by
  simp [pyMax, max_def]

theorem pyMin_eq_min (a b : ℚ) : pyMin a b = min a b := by
  simp [pyMin, min_def]

/-! ## Helper lemmas about the memoization cache -/

theorem lookupEntries_removeKey_none {K V : Type} [DecidableEq K]
    (es : List (K × V)) (k k0 : K) (h : lookupEntries es k = none) :
    lookupEntries (removeKey es k0) k = none := by
  induction es with
  | nil => simp [removeKey, lookupEntries]
  | cons q rest ih =>
    obtain ⟨k', v⟩ := q
    by_cases hk : k' = k
    · simp [lookupEntries, hk] at h
    · simp only [lookupEntries, if_neg hk] at h
      by_cases hk0 : k' = k0
      · simpa [removeKey, hk0] using ih h
      · simpa [removeKey, hk0, lookupEntries, hk] using ih h

theorem removeKey_length_le {K V : Type} [DecidableEq K]
    (es : List (K × V)) (k : K) : (removeKey es k).length ≤ es.length := by
  induction es with
  | nil => simp [removeKey]
  | cons q rest ih =>
    obtain ⟨k', v⟩ := q
    by_cases hk : k' = k
    · simp only [removeKey, if_pos hk, List.length_cons]
      omega
    · simp only [removeKey, if_neg hk, List.length_cons]
      omega

theorem removeKey_length_lt {K V : Type} [DecidableEq K]
    (es : List (K × V)) (k : K) (v : V) (h : lookupEntries es k = some v) :
    (removeKey es k).length < es.length := by
  induction es with
  | nil => simp [lookupEntries] at h
  | cons q rest ih =>
    obtain ⟨k', w⟩ := q
    by_cases hk : k' = k
    · simp only [removeKey, if_pos hk, List.length_cons]
      have := removeKey_length_le rest k
      omega
    · simp only [lookupEntries, if_neg hk] at h
      simp only [removeKey, if_neg hk, List.length_cons]
      have := ih h
      omega

theorem lookupEntries_take_none {K V : Type} [DecidableEq K]
    (es : List (K × V)) (k : K) (h : lookupEntries es k = none) :
    ∀ n, lookupEntries (es.take n) k = none := by
  induction es with
  | nil => intro n; simp [lookupEntries]
  | cons q rest ih =>
    obtain ⟨k', v⟩ := q
    intro n
    cases n with
    | zero => simp [lookupEntries]
    | succ m =>
      by_cases hk : k' = k
      · simp [lookupEntries, hk] at h
      · simp only [lookupEntries, if_neg hk] at h
        simpa [List.take_succ_cons, lookupEntries, hk] using ih h m

theorem lookup_touch_self {K V : Type} [DecidableEq K] (c : LRU K V) (k : K) (v : V) :
    (c.touch k v).lookup k = some v := by
  simp [LRU.touch, LRU.lookup, lookupEntries]

theorem lookup_touch_none {K V : Type} [DecidableEq K] (c : LRU K V) (k k0 : K) (v0 : V)
    (h : c.lookup k = none) (hk : k0 ≠ k) : (c.touch k0 v0).lookup k = none := by
  simp only [LRU.touch, LRU.lookup, lookupEntries, if_neg hk]
  exact lookupEntries_removeKey_none c.entries k k0 h

theorem lookup_insert_self {K V : Type} [DecidableEq K] (c : LRU K V) (k : K) (v : V)
    (hm : 0 < c.maxsize) : (c.insert k v).lookup k = some v := by
  unfold LRU.insert LRU.lookup
  rcases Nat.exists_eq_succ_of_ne_zero (Nat.pos_iff_ne_zero.mp hm) with ⟨m, hmax⟩
  simp [hmax, List.take_succ_cons, lookupEntries]

theorem lookup_insert_none {K V : Type} [DecidableEq K] (c : LRU K V) (k k0 : K) (v0 : V)
    (h : c.lookup k = none) (hk : k0 ≠ k) : (c.insert k0 v0).lookup k = none := by
  unfold LRU.insert LRU.lookup
  cases hmax : c.maxsize with
  | zero => simp [lookupEntries]
  | succ m =>
    simp only [List.take_succ_cons, lookupEntries, if_neg hk]
    exact lookupEntries_take_none c.entries k h m

theorem get_cached_data_hit {E V : Type} (fetch : CacheKey → Except E V)
    (c : LRU CacheKey V) (s p i : String) (v : V)
    (h : c.lookup ⟨s, p, i⟩ = some v) :
    get_cached_data fetch c s p i = ⟨.ok v, c.touch ⟨s, p, i⟩ v, 0⟩ := by
  simp [get_cached_data, h]

theorem get_cached_data_miss_ok {E V : Type} (fetch : CacheKey → Except E V)
    (c : LRU CacheKey V) (s p i : String) (v : V)
    (h : c.lookup ⟨s, p, i⟩ = none) (hf : fetch ⟨s, p, i⟩ = .ok v) :
    get_cached_data fetch c s p i = ⟨.ok v, c.insert ⟨s, p, i⟩ v, 1⟩ := by
  simp [get_cached_data, h, hf]

theorem get_cached_data_miss_error {E V : Type} (fetch : CacheKey → Except E V)
    (c : LRU CacheKey V) (s p i : String) (e : E)
    (h : c.lookup ⟨s, p, i⟩ = none) (hf : fetch ⟨s, p, i⟩ = .error e) :
    get_cached_data fetch c s p i = ⟨.error e, c, 1⟩ := by
  simp [get_cached_data, h, hf]

/-! ## Claim C1 — at most one fetch per resident key -/

/-- Claim C1: while a key `(symbol, period, interval)` is resident in the
memoization cache, `get_cached_data` issues no further underlying fetch for
it: a hit fetches 0 times, returns the stored value and keeps the key
resident; any call fetches at most once, and only when the key is absent;
and two successive calls with an identical key (whose fetch succeeds) issue
at most one fetch in total, the second returning the previously stored value
with no network access. -/
theorem cached_key_fetched_at_most_once_while_resident {E V : Type}
    (fetch : CacheKey → Except E V) (c : LRU CacheKey V) (s p i : String)
    (hm : c.maxsize = 128) :
    (∀ v, c.lookup ⟨s, p, i⟩ = some v →
      (get_cached_data fetch c s p i).fetches = 0 ∧
      (get_cached_data fetch c s p i).result = .ok v ∧
      (get_cached_data fetch c s p i).cache.lookup ⟨s, p, i⟩ = some v) ∧
    (get_cached_data fetch c s p i).fetches ≤ 1 ∧
    ((get_cached_data fetch c s p i).fetches = 1 → c.lookup ⟨s, p, i⟩ = none) ∧
    (∀ v, fetch ⟨s, p, i⟩ = .ok v →
      (get_cached_data fetch c s p i).fetches +
        (get_cached_data fetch (get_cached_data fetch c s p i).cache s p i).fetches ≤ 1 ∧
      (get_cached_data fetch (get_cached_data fetch c s p i).cache s p i).fetches = 0 ∧
      ∃ w, (get_cached_data fetch c s p i).cache.lookup ⟨s, p, i⟩ = some w ∧
        (get_cached_data fetch (get_cached_data fetch c s p i).cache s p i).result =
          .ok w) := by
  cases h : c.lookup ⟨s, p, i⟩ with
  | some v0 =>
    have hget := get_cached_data_hit fetch c s p i v0 h
    have htouch : (c.touch ⟨s, p, i⟩ v0).lookup ⟨s, p, i⟩ = some v0 :=
      lookup_touch_self c ⟨s, p, i⟩ v0
    have hget2 := get_cached_data_hit fetch (c.touch ⟨s, p, i⟩ v0) s p i v0 htouch
    refine ⟨?_, ?_, ?_, ?_⟩
    · intro v hv
      injection hv with hv
      subst hv
      refine ⟨by simp [hget], by simp [hget], ?_⟩
      rw [hget]
      exact htouch
    · simp [hget]
    · intro h1
      simp [hget] at h1
    · intro v hf
      refine ⟨by simp [hget, hget2], by simp [hget, hget2], v0, ?_, ?_⟩
      · rw [hget]
        exact htouch
      · rw [hget, hget2]
  | none =>
    cases hf : fetch ⟨s, p, i⟩ with
    | ok v0 =>
      have hget := get_cached_data_miss_ok fetch c s p i v0 h hf
      have hins : (c.insert ⟨s, p, i⟩ v0).lookup ⟨s, p, i⟩ = some v0 :=
        lookup_insert_self c ⟨s, p, i⟩ v0 (by omega)
      have hget2 := get_cached_data_hit fetch (c.insert ⟨s, p, i⟩ v0) s p i v0 hins
      refine ⟨?_, ?_, ?_, ?_⟩
      · intro v hv
        cases hv
      · simp [hget]
      · intro _
        rfl
      · intro v hfv
        injection hfv with hv
        subst hv
        refine ⟨by simp [hget, hget2], by simp [hget, hget2], v0, ?_, ?_⟩
        · rw [hget]
          exact hins
        · rw [hget, hget2]
    | error e =>
      have hget := get_cached_data_miss_error fetch c s p i e h hf
      refine ⟨?_, ?_, ?_, ?_⟩
      · intro v hv
        cases hv
      · simp [hget]
      · intro _
        rfl
      · intro v hfv
        exact Except.noConfusion hfv

/-- A concrete one-bar sample series for the witnesses. -/
def sampleBar : Bar := ⟨0, 1, 1, 1, 1, 1⟩

/-- A concrete sample series. -/
def sampleSeries : Series := [sampleBar]

/-- Concrete fetcher: every key maps to the sample series. -/
def fetchConstOk : CacheKey → Except Unit Series :=
  fun _ => .ok sampleSeries

/-- An empty cache of the source's capacity, `lru_cache(maxsize=128)`. -/
def emptyCache128 : LRU CacheKey Series :=
  ⟨128, []⟩

/-- A 128-slot cache already holding the key `("AAPL", "1y", "1d")`. -/
def cacheWithAAPL : LRU CacheKey Series :=
  ⟨128, [(⟨"AAPL", "1y", "1d"⟩, sampleSeries)]⟩

/-- Witness for claim C1: a hit on a resident key fetches 0 times and keeps
the key resident, a miss fetches at most once and only when the key was
absent, and two successive calls on an empty cache fetch once in total. -/
theorem cached_key_fetched_at_most_once_while_resident_witness :
    ((get_cached_data fetchConstOk cacheWithAAPL "AAPL" "1y" "1d").fetches = 0 ∧
      (get_cached_data fetchConstOk cacheWithAAPL "AAPL" "1y" "1d").result =
        .ok sampleSeries ∧
      (get_cached_data fetchConstOk cacheWithAAPL "AAPL" "1y" "1d").cache.lookup
        ⟨"AAPL", "1y", "1d"⟩ = some sampleSeries) ∧
    (get_cached_data fetchConstOk emptyCache128 "AAPL" "1y" "1d").fetches ≤ 1 ∧
    ((get_cached_data fetchConstOk emptyCache128 "AAPL" "1y" "1d").fetches = 1 →
      emptyCache128.lookup ⟨"AAPL", "1y", "1d"⟩ = none) ∧
    ((get_cached_data fetchConstOk emptyCache128 "AAPL" "1y" "1d").fetches +
        (get_cached_data fetchConstOk
          (get_cached_data fetchConstOk emptyCache128 "AAPL" "1y" "1d").cache
          "AAPL" "1y" "1d").fetches ≤ 1 ∧
      (get_cached_data fetchConstOk
        (get_cached_data fetchConstOk emptyCache128 "AAPL" "1y" "1d").cache
        "AAPL" "1y" "1d").fetches = 0 ∧
      ∃ w, (get_cached_data fetchConstOk emptyCache128 "AAPL" "1y" "1d").cache.lookup
          ⟨"AAPL", "1y", "1d"⟩ = some w ∧
        (get_cached_data fetchConstOk
          (get_cached_data fetchConstOk emptyCache128 "AAPL" "1y" "1d").cache
          "AAPL" "1y" "1d").result = .ok w) :=
  ⟨(cached_key_fetched_at_most_once_while_resident fetchConstOk cacheWithAAPL
      "AAPL" "1y" "1d" rfl).1 sampleSeries rfl,
   (cached_key_fetched_at_most_once_while_resident fetchConstOk emptyCache128
      "AAPL" "1y" "1d" rfl).2.1,
   (cached_key_fetched_at_most_once_while_resident fetchConstOk emptyCache128
      "AAPL" "1y" "1d" rfl).2.2.1,
   (cached_key_fetched_at_most_once_while_resident fetchConstOk emptyCache128
      "AAPL" "1y" "1d" rfl).2.2.2 sampleSeries rfl⟩

/-! ## Claim C3 — LRU capacity 128, eviction and recency -/

/-- Claim C3: the cache never holds more than 128 entries; every successful
access (hit or miss) moves the accessed key to the most-recently-used
position; inserting a new key into a full cache of 128 entries evicts
exactly the least-recently-used entry and keeps all 127 others in order; and
a key touched by a hit survives the next insertion of a fresh key. -/
theorem lru_capacity_eviction_and_recency {E V : Type}
    (fetch : CacheKey → Except E V) (c : LRU CacheKey V) (s p i : String)
    (hm : c.maxsize = 128) :
    (c.entries.length ≤ 128 →
      (get_cached_data fetch c s p i).cache.entries.length ≤ 128) ∧
    (∀ v, (get_cached_data fetch c s p i).result = .ok v →
      (get_cached_data fetch c s p i).cache.entries.head? = some (⟨s, p, i⟩, v)) ∧
    (∀ front kl vl v, c.entries = front ++ [(kl, vl)] → front.length = 127 →
      c.lookup ⟨s, p, i⟩ = none → fetch ⟨s, p, i⟩ = .ok v →
      (get_cached_data fetch c s p i).cache.entries = (⟨s, p, i⟩, v) :: front) ∧
    (∀ (k0 : CacheKey) (v0 v : V),
      c.lookup k0 = some v0 → c.lookup ⟨s, p, i⟩ = none → k0 ≠ ⟨s, p, i⟩ →
      fetch ⟨s, p, i⟩ = .ok v →
      (get_cached_data fetch
          (get_cached_data fetch c k0.symbol k0.period k0.interval).cache
          s p i).cache.lookup k0 = some v0) := by
  have h128 : (128 : Nat) = 127 + 1 := rfl
  refine ⟨?_, ?_, ?_, ?_⟩
  · intro hlen
    cases h : c.lookup ⟨s, p, i⟩ with
    | some v0 =>
      rw [get_cached_data_hit fetch c s p i v0 h]
      have hlt := removeKey_length_lt c.entries ⟨s, p, i⟩ v0 h
      simp only [LRU.touch, List.length_cons]
      omega
    | none =>
      cases hf : fetch ⟨s, p, i⟩ with
      | ok v0 =>
        rw [get_cached_data_miss_ok fetch c s p i v0 h hf]
        simp only [LRU.insert, hm, List.length_take]
        omega
      | error e =>
        rw [get_cached_data_miss_error fetch c s p i e h hf]
        exact hlen
  · intro v hres
    cases h : c.lookup ⟨s, p, i⟩ with
    | some v0 =>
      rw [get_cached_data_hit fetch c s p i v0 h] at hres ⊢
      simp only [] at hres
      injection hres with hres
      subst hres
      simp [LRU.touch]
    | none =>
      cases hf : fetch ⟨s, p, i⟩ with
      | ok v0 =>
        rw [get_cached_data_miss_ok fetch c s p i v0 h hf] at hres ⊢
        simp only [] at hres
        injection hres with hres
        subst hres
        simp only [LRU.insert, hm, h128, List.take_succ_cons, List.head?_cons]
      | error e =>
        rw [get_cached_data_miss_error fetch c s p i e h hf] at hres
        simp at hres
  · intro front kl vl v hfront hlen h hf
    rw [get_cached_data_miss_ok fetch c s p i v h hf]
    simp only [LRU.insert, hm, hfront, h128, List.take_succ_cons]
    rw [← hlen, List.take_left]
  · intro k0 v0 v h0 h hk0 hf
    obtain ⟨s0, p0, i0⟩ := k0
    have hget1 := get_cached_data_hit fetch c s0 p0 i0 v0 h0
    simp only [] at hget1 ⊢
    rw [hget1]
    have hc1 : ((c.touch ⟨s0, p0, i0⟩ v0).lookup ⟨s, p, i⟩) = none :=
      lookup_touch_none c ⟨s, p, i⟩ ⟨s0, p0, i0⟩ v0 h hk0
    rw [get_cached_data_miss_ok fetch (c.touch ⟨s0, p0, i0⟩ v0) s p i v hc1 hf]
    have hk0' : (⟨s, p, i⟩ : CacheKey) ≠ ⟨s0, p0, i0⟩ := Ne.symm hk0
    simp only [LRU.insert, LRU.touch, LRU.lookup, hm, h128, List.take_succ_cons]
    simp [lookupEntries, hk0']

/-- One cache key per small number, for filling the cache in witnesses. -/
def keyN (n : Nat) : CacheKey := ⟨toString n, "1y", "1d"⟩

/-- The first 127 (most recently used) entries of the full witness cache. -/
def frontEntries : List (CacheKey × Series) :=
  (List.range 127).map (fun n => (keyN n, []))

/-- A full 128-entry cache whose least-recently-used key is `keyN 127`. -/
def fullCache128 : LRU CacheKey Series :=
  ⟨128, frontEntries ++ [(keyN 127, [])]⟩

/-- Witness for claim C3 on a concrete full cache of 128 distinct keys:
inserting the 129th key `("AAPL", "1y", "1d")` evicts exactly the
least-recently-used key `keyN 127` and keeps the other 127; the capacity
bound holds; the inserted key lands in the most-recently-used slot; and a
key touched before the insertion survives it. -/
theorem lru_capacity_eviction_and_recency_witness :
    (get_cached_data fetchConstOk fullCache128 "AAPL" "1y" "1d").cache.entries.length
      ≤ 128 ∧
    (get_cached_data fetchConstOk fullCache128 "AAPL" "1y" "1d").cache.entries.head?
      = some (⟨"AAPL", "1y", "1d"⟩, sampleSeries) ∧
    (get_cached_data fetchConstOk fullCache128 "AAPL" "1y" "1d").cache.entries
      = (⟨"AAPL", "1y", "1d"⟩, sampleSeries) :: frontEntries ∧
    (get_cached_data fetchConstOk
        (get_cached_data fetchConstOk fullCache128 (keyN 5).symbol (keyN 5).period
          (keyN 5).interval).cache
        "AAPL" "1y" "1d").cache.lookup (keyN 5) = some [] :=
  ⟨(lru_capacity_eviction_and_recency fetchConstOk fullCache128 "AAPL" "1y" "1d"
      rfl).1 (by simp [fullCache128, frontEntries]),
   (lru_capacity_eviction_and_recency fetchConstOk fullCache128 "AAPL" "1y" "1d"
      rfl).2.1 sampleSeries rfl,
   (lru_capacity_eviction_and_recency fetchConstOk fullCache128 "AAPL" "1y" "1d"
      rfl).2.2.1 frontEntries (keyN 127) [] sampleSeries rfl
      (by simp [frontEntries]) (by decide) rfl,
   (lru_capacity_eviction_and_recency fetchConstOk fullCache128 "AAPL" "1y" "1d"
      rfl).2.2.2 (keyN 5) [] sampleSeries (by decide) (by decide) (by decide) rfl⟩

/-! ## Claim C9 — cache keys compared by exact value, no case folding -/

/-- Claim C9: cache-key equality is exact field-wise value equality of
`(symbol, period, interval)` with no normalization of symbol casing, so two
symbols differing only in case are distinct keys: fetching both fetches
twice and leaves both resident in distinct slots. -/
theorem cache_keys_case_sensitive_distinct_slots {E V : Type}
    (fetch : CacheKey → Except E V) (c : LRU CacheKey V)
    (s1 s2 p i : String) (v1 v2 : V) (hm : c.maxsize = 128)
    (hs : s1 ≠ s2)
    (h1 : c.lookup ⟨s1, p, i⟩ = none) (h2 : c.lookup ⟨s2, p, i⟩ = none)
    (hf1 : fetch ⟨s1, p, i⟩ = .ok v1) (hf2 : fetch ⟨s2, p, i⟩ = .ok v2) :
    (∀ k1 k2 : CacheKey, k1 = k2 ↔
      (k1.symbol = k2.symbol ∧ k1.period = k2.period ∧ k1.interval = k2.interval)) ∧
    (⟨s1, p, i⟩ : CacheKey) ≠ ⟨s2, p, i⟩ ∧
    (get_cached_data fetch c s1 p i).fetches = 1 ∧
    (get_cached_data fetch (get_cached_data fetch c s1 p i).cache s2 p i).fetches
      = 1 ∧
    (get_cached_data fetch (get_cached_data fetch c s1 p i).cache s2 p i).cache.lookup
      ⟨s1, p, i⟩ = some v1 ∧
    (get_cached_data fetch (get_cached_data fetch c s1 p i).cache s2 p i).cache.lookup
      ⟨s2, p, i⟩ = some v2 := by
  have hk : (⟨s1, p, i⟩ : CacheKey) ≠ ⟨s2, p, i⟩ := by
    intro hh
    exact hs (congrArg CacheKey.symbol hh)
  have hk2 := Ne.symm hk
  have hget1 := get_cached_data_miss_ok fetch c s1 p i v1 h1 hf1
  have hc1 : ((c.insert ⟨s1, p, i⟩ v1).lookup ⟨s2, p, i⟩) = none :=
    lookup_insert_none c ⟨s2, p, i⟩ ⟨s1, p, i⟩ v1 h2 hk
  have hget2 :=
    get_cached_data_miss_ok fetch (c.insert ⟨s1, p, i⟩ v1) s2 p i v2 hc1 hf2
  have h128 : (128 : Nat) = 127 + 1 := rfl
  refine ⟨?_, hk, ?_, ?_, ?_, ?_⟩
  · intro k1 k2
    cases k1
    cases k2
    simp
  · rw [hget1]
  · rw [hget1, hget2]
  · rw [hget1, hget2]
    simp only [LRU.insert, LRU.lookup, hm, h128, List.take_succ_cons]
    simp [lookupEntries, hk2]
  · rw [hget1, hget2]
    exact lookup_insert_self (c.insert ⟨s1, p, i⟩ v1) ⟨s2, p, i⟩ v2
      (by simp [LRU.insert, hm])

/-- Witness for claim C9 at the concrete pair of symbols `"AAPL"` and
`"aapl"` on an empty 128-slot cache. -/
theorem cache_keys_case_sensitive_distinct_slots_witness :
    ((⟨"AAPL", "1y", "1d"⟩ : CacheKey) = ⟨"aapl", "1y", "1d"⟩ ↔
      ("AAPL" = "aapl" ∧ "1y" = "1y" ∧ "1d" = "1d")) ∧
    (⟨"AAPL", "1y", "1d"⟩ : CacheKey) ≠ ⟨"aapl", "1y", "1d"⟩ ∧
    (get_cached_data fetchConstOk emptyCache128 "AAPL" "1y" "1d").fetches = 1 ∧
    (get_cached_data fetchConstOk
      (get_cached_data fetchConstOk emptyCache128 "AAPL" "1y" "1d").cache
      "aapl" "1y" "1d").fetches = 1 ∧
    (get_cached_data fetchConstOk
      (get_cached_data fetchConstOk emptyCache128 "AAPL" "1y" "1d").cache
      "aapl" "1y" "1d").cache.lookup ⟨"AAPL", "1y", "1d"⟩ = some sampleSeries ∧
    (get_cached_data fetchConstOk
      (get_cached_data fetchConstOk emptyCache128 "AAPL" "1y" "1d").cache
      "aapl" "1y" "1d").cache.lookup ⟨"aapl", "1y", "1d"⟩ = some sampleSeries :=
  ⟨(cache_keys_case_sensitive_distinct_slots fetchConstOk emptyCache128
      "AAPL" "aapl" "1y" "1d" sampleSeries sampleSeries rfl (by decide)
      rfl rfl rfl rfl).1 ⟨"AAPL", "1y", "1d"⟩ ⟨"aapl", "1y", "1d"⟩,
   (cache_keys_case_sensitive_distinct_slots fetchConstOk emptyCache128
      "AAPL" "aapl" "1y" "1d" sampleSeries sampleSeries rfl (by decide)
      rfl rfl rfl rfl).2.1,
   (cache_keys_case_sensitive_distinct_slots fetchConstOk emptyCache128
      "AAPL" "aapl" "1y" "1d" sampleSeries sampleSeries rfl (by decide)
      rfl rfl rfl rfl).2.2.1,
   (cache_keys_case_sensitive_distinct_slots fetchConstOk emptyCache128
      "AAPL" "aapl" "1y" "1d" sampleSeries sampleSeries rfl (by decide)
      rfl rfl rfl rfl).2.2.2.1,
   (cache_keys_case_sensitive_distinct_slots fetchConstOk emptyCache128
      "AAPL" "aapl" "1y" "1d" sampleSeries sampleSeries rfl (by decide)
      rfl rfl rfl rfl).2.2.2.2.1,
   (cache_keys_case_sensitive_distinct_slots fetchConstOk emptyCache128
      "AAPL" "aapl" "1y" "1d" sampleSeries sampleSeries rfl (by decide)
      rfl rfl rfl rfl).2.2.2.2.2⟩

/-! ## Claim C4 — fetch failures are not cached -/

/-- Claim C4: when the key is absent and the retry-wrapped fetcher fails,
`get_cached_data` raises, the cache is left exactly as it was, and a second
call with the same key runs the identical full fetch sequence again (no
negative caching); composed with the retry policy, each such sequence is the
full 5-attempt retry run ending in the wrapped final exception. -/
theorem fetch_failure_never_cached {E V : Type} (fetch : CacheKey → Except E V)
    (c : LRU CacheKey V) (s p i : String) (e : E)
    (hmiss : c.lookup ⟨s, p, i⟩ = none) (hf : fetch ⟨s, p, i⟩ = .error e) :
    get_cached_data fetch c s p i = ⟨.error e, c, 1⟩ ∧
    get_cached_data fetch (get_cached_data fetch c s p i).cache s p i =
      ⟨.error e, c, 1⟩ ∧
    (∀ (E2 V2 : Type) (oracle : Nat → Except E2 V2) (e0 e1 e2 e3 e4 : E2),
      oracle 0 = .error e0 → oracle 1 = .error e1 → oracle 2 = .error e2 →
      oracle 3 = .error e3 → oracle 4 = .error e4 →
      fetch_data oracle 0 = (.error (.retryError e4), 5, 20)) := by
  have hget := get_cached_data_miss_error fetch c s p i e hmiss hf
  refine ⟨hget, ?_, ?_⟩
  · rw [hget]
    exact hget
  · intro E2 V2 oracle e0 e1 e2 e3 e4 h0 h1 h2 h3 h4
    norm_num [fetch_data, retryGo, h0, h1, h2, h3, h4, dashboardWait,
      wait_exponential, pyMax, pyMin]

/-- Concrete always-failing fetcher for claim C4. -/
def fetchConstError : CacheKey → Except Nat Series :=
  fun _ => .error 9

/-- Concrete always-failing retry oracle with distinguishable error values. -/
def oracleErrIdx : Nat → Except Nat Series :=
  fun i => .error i

/-- Witness for claim C4 on an empty 128-slot cache: the failed call leaves
the cache empty and the repeat call runs the identical fetch again; the
composed retry sequence makes the full 5 attempts and surfaces the wrapped
final error. -/
theorem fetch_failure_never_cached_witness :
    get_cached_data fetchConstError emptyCache128 "AAPL" "1y" "1d" =
      ⟨.error 9, emptyCache128, 1⟩ ∧
    get_cached_data fetchConstError
      (get_cached_data fetchConstError emptyCache128 "AAPL" "1y" "1d").cache
      "AAPL" "1y" "1d" = ⟨.error 9, emptyCache128, 1⟩ ∧
    fetch_data oracleErrIdx 0 = (.error (.retryError 4), 5, 20) :=
  ⟨(fetch_failure_never_cached fetchConstError emptyCache128 "AAPL" "1y" "1d" 9
      rfl rfl).1,
   (fetch_failure_never_cached fetchConstError emptyCache128 "AAPL" "1y" "1d" 9
      rfl rfl).2.1,
   (fetch_failure_never_cached fetchConstError emptyCache128 "AAPL" "1y" "1d" 9
      rfl rfl).2.2 Nat Series oracleErrIdx 0 1 2 3 4 rfl rfl rfl rfl rfl⟩

/-! ## Claim C2 — retry policy -/

/-- Claim C2 (amended): the retry policy makes at most 5 total attempts, and
the wait before attempt `k` (`2 ≤ k ≤ 5`) equals
`min(max(4, multiplier * 2^(k-2)), 60)` seconds with `multiplier = 1`; since
the exponential term only passes the 4-second floor at `k = 5`, the waits are
4, 4, 4, 8 seconds, so a fetcher that fails on its first 4 calls and succeeds
on the 5th yields exactly 5 attempts and cumulative sleep of exactly
4+4+4+8 = 20 seconds (not 4+8+16+32). -/
theorem retry_at_most_five_attempts_with_clamped_backoff {E V : Type}
    (oracle : Nat → Except E V) (e0 e1 e2 e3 : E) (v : V)
    (h0 : oracle 0 = .error e0) (h1 : oracle 1 = .error e1)
    (h2 : oracle 2 = .error e2) (h3 : oracle 3 = .error e3)
    (h4 : oracle 4 = .ok v) :
    (∀ (E2 V2 : Type) (oracle2 : Nat → Except E2 V2) (s : Nat),
      (fetch_data oracle2 s).2.1 ≤ 5) ∧
    (∀ k : Nat, 2 ≤ k → k ≤ 5 →
      dashboardWait k = min (max 4 (1 * 2 ^ (k - 2))) 60) ∧
    fetch_data oracle 0 = (.ok v, 5, 20) := by
  refine ⟨?_, ?_, ?_⟩
  · intro E2 V2 oracle2 s
    rw [fetch_data_attempts]
    have h := retryGo_attempt_le oracle2 dashboardWait 4 s 1
    omega
  · intro k hk2 hk5
    interval_cases k <;>
      simp [dashboardWait, wait_exponential, pyMax, pyMin, min_def, max_def] <;>
      norm_num
  · norm_num [fetch_data, retryGo, h0, h1, h2, h3, h4, dashboardWait,
      wait_exponential, pyMax, pyMin]

/-- Concrete fetcher for claim C2: fails on its first 4 calls, succeeds on
the 5th. -/
def oracleFourFailures : Nat → Except Unit Nat :=
  fun i => if i < 4 then .error () else .ok 7

/-- Claim C2 counterexample: under the code's own wait formula the waits are
4, 4, 4, 8 — the second retry's wait does not double the first retry's wait,
and the cumulative sleep of the fail-4-then-succeed scenario is 20 seconds,
not at least 4+8+16+32 = 60. -/
theorem retry_backoff_does_not_double_each_wait :
    dashboardWait 2 = 4 ∧ dashboardWait 3 = 4 ∧
    dashboardWait 3 ≠ 2 * dashboardWait 2 ∧
    fetch_data oracleFourFailures 0 = (.ok 7, 5, 20) ∧
    ¬ ((4 : ℚ) + 8 + 16 + 32 ≤ (fetch_data oracleFourFailures 0).2.2) := by
  have hw2 : dashboardWait 2 = 4 := by
    norm_num [dashboardWait, wait_exponential, pyMax, pyMin]
  have hw3 : dashboardWait 3 = 4 := by
    norm_num [dashboardWait, wait_exponential, pyMax, pyMin]
  have hrun : fetch_data oracleFourFailures 0 = (.ok 7, 5, 20) := by
    norm_num [fetch_data, retryGo, oracleFourFailures, dashboardWait,
      wait_exponential, pyMax, pyMin]
  refine ⟨hw2, hw3, ?_, hrun, ?_⟩
  · rw [hw2, hw3]; norm_num
  · rw [hrun]; norm_num

/-- Witness for the amended claim C2 at the concrete fail-4-then-succeed
fetcher, with the wait formula instantiated at the last retry. -/
theorem retry_at_most_five_attempts_with_clamped_backoff_witness :
    (fetch_data oracleFourFailures 0).2.1 ≤ 5 ∧
    dashboardWait 5 = min (max 4 (1 * 2 ^ (5 - 2))) 60 ∧
    fetch_data oracleFourFailures 0 = (.ok 7, 5, 20) :=
  ⟨(retry_at_most_five_attempts_with_clamped_backoff oracleFourFailures
      () () () () 7 rfl rfl rfl rfl rfl).1 Unit Nat oracleFourFailures 0,
   (retry_at_most_five_attempts_with_clamped_backoff oracleFourFailures
      () () () () 7 rfl rfl rfl rfl rfl).2.1 5 (by decide) (by decide),
   (retry_at_most_five_attempts_with_clamped_backoff oracleFourFailures
      () () () () 7 rfl rfl rfl rfl rfl).2.2⟩

/-! ## Claim C5 — every exception retryable, exhaustion wraps in RetryError -/

/-- Claim C5 (amended): any exception from the underlying fetch — of any type,
with no inspection of the error — is treated as retryable, and when all 5
attempts fail the caller receives tenacity's `RetryError` wrapping the final
attempt's exception (the source does not pass `reraise=True`, so the
underlying exception does not propagate unchanged). -/
theorem any_exception_retried_and_exhaustion_raises_retry_error {E V : Type}
    (oracle : Nat → Except E V) (e0 e1 e2 e3 e4 : E)
    (h0 : oracle 0 = .error e0) (h1 : oracle 1 = .error e1)
    (h2 : oracle 2 = .error e2) (h3 : oracle 3 = .error e3)
    (h4 : oracle 4 = .error e4) :
    fetch_data oracle 0 = (.error (.retryError e4), 5, 20) ∧
    (∀ (E2 V2 : Type) (oracle2 : Nat → Except E2 V2) (err : E2),
      oracle2 0 = .error err → 2 ≤ (fetch_data oracle2 0).2.1) := by
  constructor
  · norm_num [fetch_data, retryGo, h0, h1, h2, h3, h4, dashboardWait,
      wait_exponential, pyMax, pyMin]
  · intro E2 V2 oracle2 err herr
    rw [fetch_data_attempts]
    unfold retryGo
    rw [herr]
    have h := retryGo_attempt_ge oracle2 dashboardWait 3 1 2
    simpa using by omega

/-- Concrete always-failing fetcher for claim C5; the error payload is the
number 7 to make the wrapping visible. -/
def oracleAlwaysError : Nat → Except Nat Nat :=
  fun _ => .error 7

/-- Claim C5 counterexample: after all 5 attempts fail, what escapes
`fetch_data` is `RetryError` wrapping the final exception, not the final
exception propagating unchanged. -/
theorem exhausted_retries_raise_wrapped_retry_error :
    fetch_data oracleAlwaysError 0 = (.error (.retryError 7), 5, 20) ∧
    (Except.error (RetryExc.retryError 7) : Except (RetryExc Nat) Nat) ≠
      .error (.reraised 7) := by
  constructor
  · norm_num [fetch_data, retryGo, oracleAlwaysError, dashboardWait,
      wait_exponential, pyMax, pyMin]
  · decide

/-- Witness for the amended claim C5 at the concrete always-failing
fetcher. -/
theorem any_exception_retried_and_exhaustion_raises_retry_error_witness :
    fetch_data oracleAlwaysError 0 = (.error (.retryError 7), 5, 20) ∧
    2 ≤ (fetch_data oracleAlwaysError 0).2.1 :=
  ⟨(any_exception_retried_and_exhaustion_raises_retry_error oracleAlwaysError
      7 7 7 7 7 rfl rfl rfl rfl rfl).1,
   (any_exception_retried_and_exhaustion_raises_retry_error oracleAlwaysError
      7 7 7 7 7 rfl rfl rfl rfl rfl).2 Nat Nat oracleAlwaysError 7 rfl⟩

/-- Claim C6: for every series whose last bar the cache returns and every
horizon `n ≥ 1`, the projection builder predicts `last_close + j` at date
`last_date + j` for each `j` in `1..n`; in particular a last close of 100
with horizon 3 yields exactly the predictions 101, 102, 103 on the next
three sequential days. -/
theorem projection_is_last_close_plus_offset {E : Type}
    (fetch : CacheKey → Except E Series) (c : LRU CacheKey Series)
    (symbol : String) (n : Nat) (data : Series) (lastBar : Bar)
    (hdata : (get_cached_data fetch c symbol "1y" "1d").result = .ok data)
    (hlast : data.getLast? = some lastBar) (hn : 1 ≤ n) :
    ∃ d, (prediction_chart fetch c symbol n).1 = .ok d ∧
      d.predictedPrices.length = n ∧
      d.predictionDates.length = n ∧
      (∀ j : Nat, 1 ≤ j → j ≤ n →
        d.predictedPrices[j - 1]? = some (lastBar.Close + (j : ℚ)) ∧
        d.predictionDates[j - 1]? = some (lastBar.Date + (j : Int))) ∧
      (prediction_chart fetchClose100 emptyCache128 "AAPL" 3).1 =
        .ok ⟨[0], [100], [1, 2, 3], [101, 102, 103],
          "AAPL Price Prediction for Next 3 Days"⟩ := by
  refine ⟨⟨data.map Bar.Date, data.map Bar.Close,
    (List.range n).map (fun (j : ℕ) => lastBar.Date + ((j : Int) + 1)),
    (List.range n).map (fun (j : ℕ) => lastBar.Close + ((j : ℚ) + 1)),
    pyUpper symbol ++ " Price Prediction for Next " ++ toString n ++ " Days"⟩,
    ?_, ?_, ?_, ?_, ?_⟩
  · simp [prediction_chart, hdata, hlast]
  · rw [List.length_map, List.length_range]
  · rw [List.length_map, List.length_range]
  · intro j hj1 hjn
    have hjlt : j - 1 < n := by omega
    have hq : ((j - 1 : ℕ) : ℚ) + 1 = (j : ℚ) := by
      rw [Nat.cast_sub hj1]
      push_cast
      ring
    have hz : ((j - 1 : ℕ) : ℤ) + 1 = (j : ℤ) := by
      rw [Nat.cast_sub hj1]
      push_cast
      ring
    constructor
    · rw [List.getElem?_map, List.getElem?_range hjlt, Option.map_some']
      simp only [hq]
    · rw [List.getElem?_map, List.getElem?_range hjlt, Option.map_some']
      simp only [hz]
  · norm_num [prediction_chart, get_cached_data, fetchClose100, barClose100,
      emptyCache128, LRU.lookup, lookupEntries, LRU.insert, List.range_succ]
    decide

/-- Witness for claim C6 at the concrete close-100 one-bar series with
horizon 3 on an empty cache. -/
theorem projection_is_last_close_plus_offset_witness :
    ∃ d, (prediction_chart fetchClose100 emptyCache128 "AAPL" 3).1 = .ok d ∧
      d.predictedPrices.length = 3 ∧
      d.predictionDates.length = 3 ∧
      (∀ j : Nat, 1 ≤ j → j ≤ 3 →
        d.predictedPrices[j - 1]? = some (barClose100.Close + (j : ℚ)) ∧
        d.predictionDates[j - 1]? = some (barClose100.Date + (j : Int))) ∧
      (prediction_chart fetchClose100 emptyCache128 "AAPL" 3).1 =
        .ok ⟨[0], [100], [1, 2, 3], [101, 102, 103],
          "AAPL Price Prediction for Next 3 Days"⟩ :=
  projection_is_last_close_plus_offset fetchClose100 emptyCache128 "AAPL" 3
    [barClose100] barClose100 rfl rfl (by decide)

/-! ## Claim C7 — the refresh callback swallows every error -/

/-- Claim C7: whenever any inner step of the refresh callback fails — the
horizon failing to parse as an integer, or any chart builder raising — the
callback does not propagate the exception: it returns exactly three empty
figures, discarding the error; in particular a non-numeric horizon string
such as "abc" yields three empty figures for any builders. -/
theorem refresh_returns_three_empty_figures_on_any_error {E : Type}
    (build_indicator : String → Except E Figure)
    (build_candles : String → Except E Figure)
    (build_projection : String → Int → Except E Figure)
    (symbol pd : String) :
    (∀ err, update_charts_body build_indicator build_candles build_projection
        symbol pd = .error err →
      update_charts build_indicator build_candles build_projection symbol pd =
        (.empty, .empty, .empty)) ∧
    int_of_string "abc" = .error () ∧
    update_charts build_indicator build_candles build_projection symbol "abc" =
      (.empty, .empty, .empty) := by
  refine ⟨?_, rfl, ?_⟩
  · intro err herr
    unfold update_charts
    rw [herr]
  · unfold update_charts update_charts_body
    have habc : int_of_string "abc" = .error () := rfl
    rw [habc]

/-- Concrete failing chart builder for the claim C7 witness. -/
def buildFail : String → Except Unit Figure := fun _ => .error ()

/-- Concrete failing projection builder for the claim C7 witness. -/
def buildProjFail : String → Int → Except Unit Figure := fun _ _ => .error ()

/-- Witness for claim C7: a failing indicator builder with a well-formed
horizon, and the non-numeric horizon "abc", both yield three empty
figures. -/
theorem refresh_returns_three_empty_figures_on_any_error_witness :
    update_charts buildFail buildFail buildProjFail "AAPL" "10" =
      (.empty, .empty, .empty) ∧
    int_of_string "abc" = .error () ∧
    update_charts buildFail buildFail buildProjFail "AAPL" "abc" =
      (.empty, .empty, .empty) :=
  ⟨(refresh_returns_three_empty_figures_on_any_error buildFail buildFail
      buildProjFail "AAPL" "10").1 (some ()) rfl,
   (refresh_returns_three_empty_figures_on_any_error buildFail buildFail
      buildProjFail "AAPL" "10").2.1,
   (refresh_returns_three_empty_figures_on_any_error buildFail buildFail
      buildProjFail "AAPL" "abc").2.2⟩

/-! ## Claim C8 — quote snapshot path and the cache -/

/-- A quote dictionary with no `regularMarketPrice` key, forcing the
fallback path of `price_indicator`. -/
def infoNoQuote : QuoteInfo := ⟨none, none⟩

/-- A quote dictionary holding both quote keys. -/
def infoFullQuote : QuoteInfo := ⟨some 101, some 100⟩

/-- Claim C8 counterexample: when `yf.Ticker(symbol).info` lacks
`regularMarketPrice`, `price_indicator` falls back to
`get_cached_data(symbol, "1d", "1d")` — it invokes the cached fetch path
once and writes the key into the cache, so the price-indicator operation is
not cache-free for every symbol. -/
theorem price_indicator_fallback_touches_cache :
    (price_indicator infoNoQuote fetchConstOk emptyCache128 "MSFT").2.2 = 1 ∧
    (price_indicator infoNoQuote fetchConstOk emptyCache128 "MSFT").2.1 ≠
      emptyCache128 ∧
    (price_indicator infoNoQuote fetchConstOk emptyCache128 "MSFT").2.1.lookup
      ⟨"MSFT", "1d", "1d"⟩ = some sampleSeries := by
  refine ⟨rfl, ?_, rfl⟩
  intro hh
  have : (⟨128, [(⟨"MSFT", "1d", "1d"⟩, sampleSeries)]⟩ : LRU CacheKey Series) =
      ⟨128, []⟩ := hh
  simpa using congrArg LRU.entries this

/-- Claim C8 (amended): the quote snapshot itself is read outside the cache,
and when it contains `regularMarketPrice` the price indicator neither reads
from nor writes to the memoization cache; but when the key is absent the
indicator falls back to `get_cached_data(symbol, "1d", "1d")`, and its cache
effects are exactly those of that cached call. -/
theorem price_indicator_cache_free_only_with_quote {E : Type}
    (info : QuoteInfo) (fetch : CacheKey → Except E Series)
    (c : LRU CacheKey Series) (symbol : String) :
    (∀ q, info.regularMarketPrice = some q →
      (price_indicator info fetch c symbol).2.1 = c ∧
      (price_indicator info fetch c symbol).2.2 = 0) ∧
    (info.regularMarketPrice = none →
      (price_indicator info fetch c symbol).2.1 =
        (get_cached_data fetch c symbol "1d" "1d").cache ∧
      (price_indicator info fetch c symbol).2.2 =
        (get_cached_data fetch c symbol "1d" "1d").fetches) := by
  constructor
  · intro q hq
    cases hop : info.regularMarketOpen <;>
      simp [price_indicator, hq, hop]
  · intro hq
    cases hres : (get_cached_data fetch c symbol "1d" "1d").result with
    | error e =>
      simp [price_indicator, hq, hres]
    | ok data =>
      cases hhd : data.head? with
      | none => simp [price_indicator, hq, hres, hhd]
      | some f =>
        cases hlast : data.getLast? with
        | none => simp [price_indicator, hq, hres, hhd, hlast]
        | some l => simp [price_indicator, hq, hres, hhd, hlast]

/-- Witness for the amended claim C8: with a full quote dictionary the cache
is untouched; with the quote key missing the cache effects equal those of
`get_cached_data("MSFT", "1d", "1d")`. -/
theorem price_indicator_cache_free_only_with_quote_witness :
    ((price_indicator infoFullQuote fetchConstOk emptyCache128 "MSFT").2.1 =
        emptyCache128 ∧
      (price_indicator infoFullQuote fetchConstOk emptyCache128 "MSFT").2.2 = 0) ∧
    ((price_indicator infoNoQuote fetchConstOk emptyCache128 "MSFT").2.1 =
        (get_cached_data fetchConstOk emptyCache128 "MSFT" "1d" "1d").cache ∧
      (price_indicator infoNoQuote fetchConstOk emptyCache128 "MSFT").2.2 =
        (get_cached_data fetchConstOk emptyCache128 "MSFT" "1d" "1d").fetches) :=
  ⟨(price_indicator_cache_free_only_with_quote infoFullQuote fetchConstOk
      emptyCache128 "MSFT").1 101 rfl,
   (price_indicator_cache_free_only_with_quote infoNoQuote fetchConstOk
      emptyCache128 "MSFT").2 rfl⟩

/-! ## Claim C10 — candlestick chart ignores prediction_days -/

/-- Claim C10: the candlestick chart builder's entire outcome — the chart
description, the resulting cache state and the fetch count — is identical
for any two values of `prediction_days`, for every fetcher, cache state,
symbol, period and interval: the parameter is accepted but never used. -/
theorem candlestick_chart_ignores_prediction_days {E : Type}
    (fetch : CacheKey → Except E Series) (c : LRU CacheKey Series)
    (symbol period interval : String) (d1 d2 : Nat) :
    candlestick_chart fetch c symbol period interval d1 =
      candlestick_chart fetch c symbol period interval d2 := rfl
